import Mathlib

/-!
Shallow embedding of the market-data routing/normalization layer of the
memebetsimulator backend (src/backend/services/pump_fun_market_data.py,
xueqiu_market_data.py, market_data.py).

Python floats are modelled as rationals (ℚ); all arithmetic the claims touch
is exact at the modelled values.  Network fetches are modelled by passing the
fetch outcome as an explicit argument (`Option`/`Except`): `none` / `.error`
stands for a transport failure or an exception raised while fetching/parsing.
Python functions that raise are modelled with `Except String`.
-/

namespace MemeBet

/-- Python `str.upper()` restricted to the ASCII range used by market tags
(`market.upper() == "PUMP"` in market_data.py). -/
def pyUpper (s : String) : String :=
  ⟨s.data.map Char.toUpper⟩

/-- The ASCII whitespace characters Python's `str.strip()` removes. -/
def isPySpace (c : Char) : Bool :=
  c = ' ' || c = '\t' || c = '\n' || c = '\r' || c = '\x0b' || c = '\x0c'

/-- Python `str.strip()` on the underlying character list. -/
def pyStripList (l : List Char) : List Char :=
  ((l.dropWhile isPySpace).reverse.dropWhile isPySpace).reverse

/-- Python `str.strip()`. -/
def pyStrip (s : String) : String :=
  ⟨pyStripList s.data⟩

/-- Does the (non-empty) character sequence `sep` occur in `l`?  Backs the
Python `sub in s` tests. -/
def containsSub (sep : List Char) : List Char → Bool
  | [] => sep.isPrefixOf []
  | c :: rest => sep.isPrefixOf (c :: rest) || containsSub sep rest

/-- Python `sub in s` for a non-empty substring `sub`. -/
def pyIn (sub s : String) : Bool :=
  containsSub sub.data s.data

/-- Left-to-right scan for Python `str.split(sep)`: `fuel` bounds the
recursion (callers pass the input length, which always suffices for a
non-empty separator). -/
def splitGo (sep : List Char) : ℕ → List Char → List Char → List (List Char)
  | _, [], cur => [cur.reverse]
  | 0, l, cur => [cur.reverse ++ l]
  | fuel + 1, c :: rest, cur =>
    if sep.isPrefixOf (c :: rest) then
      cur.reverse :: splitGo sep fuel ((c :: rest).drop sep.length) []
    else
      splitGo sep fuel rest (c :: cur)

/-- Python `s.split(sep)` for a non-empty separator. -/
def pySplit (s sep : String) : List String :=
  (splitGo sep.data s.data.length s.data []).map (fun l => ⟨l⟩)

/-- Split at the first occurrence of `sep` (for Python `s.split(sep, 1)`). -/
def splitOnceGo (sep : List Char) : List Char → List Char × List Char
  | [] => ([], [])
  | c :: rest =>
    if sep.isPrefixOf (c :: rest) then ([], (c :: rest).drop sep.length)
    else
      let p := splitOnceGo sep rest
      (c :: p.1, p.2)

/-- Python `s.split(sep, 1)` as the pair (before, after) of the first
occurrence of `sep`; when `sep` does not occur, `(s, "")` (the code only
splits under an `in` guard, so that branch is never observed). -/
def splitOnce (s sep : String) : String × String :=
  if containsSub sep.data s.data then
    let p := splitOnceGo sep.data s.data
    (⟨p.1⟩, ⟨p.2⟩)
  else (s, "")

/-- Python `dict.__setitem__` on an insertion-ordered dict modelled as an
association list: updating an existing key keeps its position, a new key is
appended. -/
def dictSet (d : List (String × String)) (k v : String) : List (String × String) :=
  if d.any (fun p => p.1 = k) then
    d.map (fun p => if p.1 = k then (k, v) else p)
  else
    d ++ [(k, v)]

/-- Python `dict.update(other)` / `requests` cookie-jar `update`: merge the
entries of `kvs` into `d` one by one (no key is ever removed). -/
def dictUpdate (d : List (String × String)) (kvs : List (String × String)) :
    List (String × String) :=
  kvs.foldl (fun acc p => dictSet acc p.1 p.2) d

/-!
## Coin records and mock data (pump_fun_market_data.py)

A fetched coin is a JSON object; the fields the code reads are modelled with
`Option` (`none` = key absent).  `_get_mock_coins_data` returns three fully
populated records.
-/

/-- Coin Record as returned by the pump.fun API / `_get_mock_coins_data`. -/
structure CoinData where
  mint : String
  name : String
  symbol : String
  description : String
  image_uri : String
  usd_market_cap : Option ℚ
  total_supply : Option ℚ
  created_timestamp : Option ℤ
  last_trade_timestamp : Option ℤ
  nsfw : Bool
  complete : Bool
deriving DecidableEq, Repr

/-- First entry of `_get_mock_coins_data` (TestCoin). -/
def mockCoin1 : CoinData :=
  { mint := "11111111111111111111111111111112"
    name := "TestCoin"
    symbol := "TEST"
    description := "A test meme coin for simulation"
    image_uri := "https://via.placeholder.com/100"
    usd_market_cap := some 100000
    total_supply := some 1000000000
    created_timestamp := some 1700000000
    last_trade_timestamp := some 1700001000
    nsfw := false
    complete := false }

/-- Second entry of `_get_mock_coins_data` (MoonDoge). -/
def mockCoin2 : CoinData :=
  { mint := "22222222222222222222222222222223"
    name := "MoonDoge"
    symbol := "MDOGE"
    description := "Going to the moon with this doge"
    image_uri := "https://via.placeholder.com/100"
    usd_market_cap := some 250000
    total_supply := some 1000000000
    created_timestamp := some 1700000100
    last_trade_timestamp := some 1700001100
    nsfw := false
    complete := false }

/-- Third entry of `_get_mock_coins_data` (PepeCoin). -/
def mockCoin3 : CoinData :=
  { mint := "33333333333333333333333333333334"
    name := "PepeCoin"
    symbol := "PEPE"
    description := "Rare pepe meme coin"
    image_uri := "https://via.placeholder.com/100"
    usd_market_cap := some 500000
    total_supply := some 1000000000
    created_timestamp := some 1700000200
    last_trade_timestamp := some 1700001200
    nsfw := false
    complete := false }

/-- `PumpFunMarketData._get_mock_coins_data`: the fixed synthetic dataset,
truncated to the requested limit (`mock_coins[:limit]`). -/
def getMockCoinsData (limit : ℕ) : List CoinData :=
  [mockCoin1, mockCoin2, mockCoin3].take limit

/-- The hardcoded `mock_prices` fallback table inside
`get_last_price_from_pump_fun`. -/
def mockPrices (mintAddress : String) : Option ℚ :=
  if mintAddress = "11111111111111111111111111111112" then some 0.0001
  else if mintAddress = "22222222222222222222222222222223" then some 0.00025
  else if mintAddress = "33333333333333333333333333333334" then some 0.0005
  else none

/-- `get_last_price_from_pump_fun(mint_address)`; `coinData` is the outcome of
`get_pump_fun_coin(mint_address)` (`none` = fetch failed / returned null).
The Python code checks `coin_data and 'usd_market_cap' in coin_data`, computes
`usd_market_cap / total_supply` (supply defaulting to 1_000_000_000) when the
supply is positive, otherwise consults `mock_prices` and finally returns 0.0;
it never raises (the body is wrapped in `try/except` returning 0.0). -/
def getLastPriceFromPumpFun (mintAddress : String) (coinData : Option CoinData) : ℚ :=
  let fallback : ℚ := (mockPrices mintAddress).getD 0
  match coinData with
  | some cd =>
    match cd.usd_market_cap with
    | some marketCap =>
      let supply := cd.total_supply.getD 1000000000
      if 0 < supply then marketCap / supply else fallback
    | none => fallback
  | none => fallback

/-!
## Cookie-string parsing and session cookie updates

`PumpFunMarketData._parse_cookie_string` and
`XueqiuMarketData._parse_cookie_string` share the same three-branch body;
the Xueqiu variant additionally returns `{}` up front when the input is
falsy or whitespace-only.  The `try/except` wrappers are dead (no statement
in the body can raise), so the embeddings are total functions.
-/

/-- The shared three-branch body of `_parse_cookie_string`:
`"; "`-joined pairs, else newline-joined pairs, else a single pair; each
entry is split at its first `=` (entries with no `=` are skipped) and key
and value are stripped.  `cookies[key] = value` is Python dict assignment,
modelled by `dictSet` on an insertion-ordered association list. -/
def parseCookieCore (cookieString : String) : List (String × String) :=
  if pyIn "; " cookieString then
    (pySplit cookieString "; ").foldl
      (fun acc cookie =>
        if cookie.data.contains '=' then
          let p := splitOnce cookie "="
          dictSet acc (pyStrip p.1) (pyStrip p.2)
        else acc) []
  else if pyIn "\n" cookieString then
    (pySplit (pyStrip cookieString) "\n").foldl
      (fun acc line =>
        let line := pyStrip line
        if line.data.contains '=' then
          let p := splitOnce line "="
          dictSet acc (pyStrip p.1) (pyStrip p.2)
        else acc) []
  else
    if cookieString.data.contains '=' then
      let p := splitOnce cookieString "="
      dictSet [] (pyStrip p.1) (pyStrip p.2)
    else []

/-- `PumpFunMarketData._parse_cookie_string`. -/
def parseCookieStringPF (cookieString : String) : List (String × String) :=
  parseCookieCore cookieString

/-- `XueqiuMarketData._parse_cookie_string`: identical body preceded by
`if not cookie_string or not cookie_string.strip(): return {}` (`none`
models a `None` argument, which is falsy). -/
def parseCookieStringXQ (cookieString : Option String) : List (String × String) :=
  match cookieString with
  | none => []
  | some s =>
    if s = "" || pyStrip s = "" then []
    else parseCookieCore s

/-- `PumpFunMarketData.update_cookies`: parse the string and merge the result
into the session's cookie jar only when the parse is non-empty; an empty
parse is skipped with a warning, leaving the jar untouched.  (`requests`'
`session.cookies.update` merges and never removes entries.) -/
def updateCookiesPF (jar : List (String × String)) (cookieString : String) :
    List (String × String) :=
  let newCookies := parseCookieStringPF cookieString
  if newCookies ≠ [] then dictUpdate jar newCookies else jar

/-- `XueqiuMarketData.update_cookies`: same shape over the Xueqiu parser. -/
def updateCookiesXQ (jar : List (String × String)) (cookieString : String) :
    List (String × String) :=
  let newCookies := parseCookieStringXQ (some cookieString)
  if newCookies ≠ [] then dictUpdate jar newCookies else jar

/-- The session-cookie effect of `set_pump_fun_cookie`: it stores the string
in the module global and calls `pump_fun_client.update_cookies` on the live
session. -/
def setPumpFunCookieSession (jar : List (String × String)) (cookieString : String) :
    List (String × String) :=
  updateCookiesPF jar cookieString

/-- The session-cookie effect of `XueqiuMarketData._setup_session` (reached
from `update_xueqiu_cookie` via `set_xueqiu_cookie`): parse the stored global
cookie string and merge it into the existing session jar with
`session.cookies.update` (no guard, but updating with `{}` is a no-op). -/
def setupSessionCookiesXQ (jar : List (String × String)) (globalCookie : Option String) :
    List (String × String) :=
  dictUpdate jar (parseCookieStringXQ globalCookie)

/-!
## Coin list fetching and the degradation policy (pump_fun_market_data.py)

The HTTP exchange is abstracted into an explicit argument: `none` models a
transport failure or a JSON-decoding exception (both land in the `except`
clause), `some (status, body)` a completed response.  The `offset`, `sort`,
`order` and `include_nsfw` parameters of `get_coins_list` only shape the
outgoing request and are therefore part of that abstracted exchange.
-/

/-- The decoded JSON body shapes `_normalize_api_response` distinguishes:
a bare list, an object (whose `data` / `coins` keys may or may not be
present), or anything else. -/
inductive ApiBody where
  | jsonList (coins : List CoinData)
  | jsonObj (dataField : Option (List CoinData)) (coinsField : Option (List CoinData))
  | other
deriving DecidableEq

/-- `PumpFunMarketData._normalize_api_response`: accept a bare list, then an
object's `data` key, then its `coins` key; default to the empty list. -/
def normalizeApiResponse : ApiBody → List CoinData
  | .jsonList coins => coins
  | .jsonObj (some l) _ => l
  | .jsonObj none (some l) => l
  | .jsonObj none none => []
  | .other => []

/-- `PumpFunMarketData.get_coins_list`: on HTTP 200 normalize the body; on
the recognized failure status 530 serve `_get_mock_coins_data(limit)`; on any
other status return `[]`; any exception is swallowed into `[]`. -/
def getCoinsList (limit : ℕ) (resp : Option (ℕ × ApiBody)) : List CoinData :=
  match resp with
  | none => []
  | some (status, body) =>
    if status = 200 then normalizeApiResponse body
    else if status = 530 then getMockCoinsData limit
    else []

/-!
## Equity client: quote, kline fallback and candle normalization
(xueqiu_market_data.py)

`quote` models the quote-endpoint attempt: `none` = any exception or a
response without `data.quote`; `some current?` = a response whose
`data.quote.get('current')` yielded `current?` (`none` = key absent/null).
`kline` models the result of `get_kline_data(symbol, 'day', 1)`: `none` = it
returned `None` or a value without `data`.
-/

/-- The `data` payload of a kline response: a `column` name list and
parallel `item` rows whose cells may be JSON null (`none`). -/
structure KData where
  column : List String
  item : List (List (Option ℚ))
deriving DecidableEq

/-- Python `list.index(x)` as an option: index of the first occurrence. -/
def pyListIndex (l : List String) (x : String) : Option ℕ :=
  match l with
  | [] => none
  | a :: rest => if a = x then some 0 else (pyListIndex rest x).map (· + 1)

/-- The `{col: i for i, col in enumerate(columns)}` dict of
`parse_kline_data`, as a lookup: a duplicated column name keeps its last
index (later dict assignments overwrite earlier ones). -/
def colMapLookup (columns : List String) (name : String) : Option ℕ :=
  columns.enum.foldl (fun acc p => if p.2 = name then some p.1 else acc) none

/-- The candle-fallback half of `XueqiuMarketData.get_latest_price`: take the
first `item` row, locate `close` by `columns.index('close')`, and return the
cell when it is a positive number; every other path yields `None`. -/
def fallbackKlinePrice (kline : Option KData) : Option ℚ :=
  match kline with
  | none => none
  | some kd =>
    match kd.item with
    | [] => none
    | latest :: _ =>
      match pyListIndex kd.column "close" with
      | none => none
      | some closeIndex =>
        if h : closeIndex < latest.length then
          match latest.get ⟨closeIndex, h⟩ with
          | some price => if 0 < price then some price else none
          | none => none
        else none

/-- `XueqiuMarketData.get_latest_price`: return the quote endpoint's
`current` when it is a positive number (`if current_price and
float(current_price) > 0`), otherwise fall through to the kline fallback. -/
def getLatestPrice (quote : Option (Option ℚ)) (kline : Option KData) : Option ℚ :=
  match quote with
  | some (some current) =>
    if 0 < current then some current else fallbackKlinePrice kline
  | _ => fallbackKlinePrice kline

/-- `get_last_price_from_xueqiu`: raise unless `get_latest_price` produced a
positive price (`if price is None or price <= 0`). -/
def getLastPriceFromXueqiu (symbol : String) (quote : Option (Option ℚ))
    (kline : Option KData) : Except String ℚ :=
  match getLatestPrice quote kline with
  | none => .error ("無法獲取 " ++ symbol ++ " 的有效價格")
  | some price =>
    if price ≤ 0 then .error ("無法獲取 " ++ symbol ++ " 的有效價格")
    else .ok price

/-- The named candle record built by `parse_kline_data`.  `timestamp` /
`datetimeSecs` are absent (`none`) when the `timestamp` column is missing;
for the loop fields the outer `Option` is dict-key presence and the inner
one the stored value (`None` when the upstream cell was null). -/
structure KlineDict where
  timestamp : Option ℚ := none
  datetimeSecs : Option ℚ := none
  «open» : Option (Option ℚ) := none
  high : Option (Option ℚ) := none
  low : Option (Option ℚ) := none
  close : Option (Option ℚ) := none
  volume : Option (Option ℚ) := none
  amount : Option (Option ℚ) := none
  chg : Option (Option ℚ) := none
  percent : Option (Option ℚ) := none
deriving DecidableEq, Repr

/-- One field assignment of the `parse_kline_data` row loop: present only
when the name is in the column map and the row is long enough; `float(value)
if value is not None else None` keeps the numeric value (identity on ℚ). -/
def fieldCell (cm : String → Option ℕ) (item : List (Option ℚ)) (name : String) :
    Option (Option ℚ) :=
  match cm name with
  | some idx => if h : idx < item.length then some (item.get ⟨idx, h⟩) else none
  | none => none

/-- One iteration of the `parse_kline_data` row loop.  A null `timestamp`
cell makes `datetime.fromtimestamp(item[...] / 1000)` raise a `TypeError`
(modelled as `.error`); otherwise `datetimeSecs` records the
seconds-since-epoch value handed to `datetime.fromtimestamp`. -/
def parseRow (columns : List String) (item : List (Option ℚ)) : Except String KlineDict :=
  let cm := colMapLookup columns
  let rest : KlineDict :=
    { «open» := fieldCell cm item "open"
      high := fieldCell cm item "high"
      low := fieldCell cm item "low"
      close := fieldCell cm item "close"
      volume := fieldCell cm item "volume"
      amount := fieldCell cm item "amount"
      chg := fieldCell cm item "chg"
      percent := fieldCell cm item "percent" }
  match fieldCell cm item "timestamp" with
  | none => .ok rest
  | some (some v) => .ok { rest with timestamp := some v, datetimeSecs := some (v / 1000) }
  | some none => .error "TypeError in datetime.fromtimestamp"

/-- `XueqiuMarketData.parse_kline_data`: `[]` when the input is falsy or has
no `data`, `[]` when `column` or `item` is empty, otherwise the projected
rows (the first raising row aborts the whole call, as in Python). -/
def parseKlineData (raw : Option KData) : Except String (List KlineDict) :=
  match raw with
  | none => .ok []
  | some data =>
    if data.column.isEmpty || data.item.isEmpty then .ok []
    else data.item.mapM (parseRow data.column)

/-!
## Market Router (market_data.py)

Each router operation takes the outcome of the upstream client call it
would make as an explicit argument.  Raised exceptions are modelled by
`Except` with an inductive error that keeps the wrapped cause.
-/

/-- The cause inside a router-level exception message. -/
inductive FailCause where
  | invalidPumpPrice (price : ℚ)
  | invalidXueqiuPrice (price : ℚ)
  | emptyKlineData
  | upstream (msg : String)
deriving DecidableEq

/-- A router-level exception: `无法获取 {symbol}.{market} 的...` wrapping the
underlying cause. -/
inductive RouterError where
  | priceUnavailable (symbol market : String) (cause : FailCause)
  | klineUnavailable (symbol market : String) (cause : FailCause)
deriving DecidableEq

/-- `market_data.get_last_price`: dispatch on `market.upper() == "PUMP"`.
The pump path computes `get_last_price_from_pump_fun(symbol)` from the
fetched coin data (that function never raises); the equity path takes the
outcome of `get_last_price_from_xueqiu`.  A falsy or non-positive price
(`if price and price > 0` failing) becomes a raised, wrapped exception. -/
def routerGetLastPrice (symbol market : String) (coinData : Option CoinData)
    (xq : Except String ℚ) : Except RouterError ℚ :=
  if pyUpper market = "PUMP" then
    let price := getLastPriceFromPumpFun symbol coinData
    if 0 < price then .ok price
    else .error (.priceUnavailable symbol market (.invalidPumpPrice price))
  else
    match xq with
    | .ok price =>
      if 0 < price then .ok price
      else .error (.priceUnavailable symbol market (.invalidXueqiuPrice price))
    | .error msg => .error (.priceUnavailable symbol market (.upstream msg))

/-- `market_data.get_kline_data`: the pump path returns `[]` without
consulting any upstream; the equity path raises on an empty list and wraps
upstream failures. -/
def routerGetKlineData (symbol market period : String) (count : ℤ)
    (xq : Except String (List KlineDict)) : Except RouterError (List KlineDict) :=
  if pyUpper market = "PUMP" then .ok []
  else
    match xq with
    | .ok data =>
      if data.isEmpty then .error (.klineUnavailable symbol market .emptyKlineData)
      else .ok data
    | .error msg => .error (.klineUnavailable symbol market (.upstream msg))

/-- A market-status record; the pump constant populates `market_name` /
`trading_hours`, the equity one `symbol` / `timestamp` / `current_time`. -/
structure MarketStatusRec where
  market_status : String
  market_name : Option String := none
  trading_hours : Option String := none
  symbol : Option String := none
  timestamp : Option ℤ := none
  current_time : Option String := none
deriving DecidableEq, Repr

/-- `XueqiuMarketData.get_market_status`: the status is derived from the
wall-clock hour (`21 <= hour <= 23 or 0 <= hour <= 4` → `TRADING`, else
`CLOSED`); `nowMillis` / `nowIso` model `time.time()*1000` and
`datetime.now().isoformat()`. -/
def xueqiuGetMarketStatus (symbol : String) (hour : ℕ) (nowMillis : ℤ)
    (nowIso : String) : MarketStatusRec :=
  let status := if (21 ≤ hour ∧ hour ≤ 23) ∨ (0 ≤ hour ∧ hour ≤ 4) then "TRADING" else "CLOSED"
  { market_status := status
    symbol := some symbol
    timestamp := some nowMillis
    current_time := some nowIso }

/-- The fixed constant `market_data.get_market_status` returns on the pump
path. -/
def pumpMarketStatus : MarketStatusRec :=
  { market_status := "OPEN"
    market_name := some "Pump.fun"
    trading_hours := some "24/7" }

/-- `market_data.get_market_status`: the pump path returns the fixed
constant; every other tag delegates to the equity client (whose status
computation cannot raise, so the `except` clause is dead). -/
def routerGetMarketStatus (symbol market : String) (hour : ℕ) (nowMillis : ℤ)
    (nowIso : String) : MarketStatusRec :=
  if pyUpper market = "PUMP" then pumpMarketStatus
  else xueqiuGetMarketStatus symbol hour nowMillis nowIso

/-!
## Claim theorems
-/

/-- C1, counterexample: when the coin cannot be fetched (`get_pump_fun_coin`
returned null), `get_last_price_from_pump_fun` on the first hardcoded mock
mint address returns the mock price 0.0001, not the 0.0 the claim states. -/
theorem C1_counterexample :
    getLastPriceFromPumpFun "11111111111111111111111111111112" none = 0.0001 ∧
    (0.0001 : ℚ) ≠ 0 := by
  constructor
  · simp [getLastPriceFromPumpFun, mockPrices]
  · norm_num

/-- C1, amended: when the fetched coin record carries `usd_market_cap` and
its `total_supply` (defaulting to 1,000,000,000 when absent) is positive,
`get_last_price_from_pump_fun` returns `usd_market_cap / total_supply`;
when the supply is non-positive, or the coin cannot be fetched at all, it
returns the hardcoded mock price for the three mock mint addresses and 0.0
for every other address (`(mockPrices mint).getD 0`); it never raises. -/
theorem C1_amended (mint : String) (cd : CoinData) (mc : ℚ)
    (hmc : cd.usd_market_cap = some mc) :
    (0 < cd.total_supply.getD 1000000000 →
      getLastPriceFromPumpFun mint (some cd) = mc / cd.total_supply.getD 1000000000) ∧
    (cd.total_supply.getD 1000000000 ≤ 0 →
      getLastPriceFromPumpFun mint (some cd) = (mockPrices mint).getD 0) ∧
    getLastPriceFromPumpFun mint none = (mockPrices mint).getD 0 := by
  refine ⟨?_, ?_, ?_⟩
  · intro h
    simp [getLastPriceFromPumpFun, hmc, h]
  · intro h
    simp [getLastPriceFromPumpFun, hmc, not_lt.mpr h]
  · simp [getLastPriceFromPumpFun]

/-- C1, witness: the spec's own examples, on a mint address outside the mock
table — `usd_market_cap = 100000` with `total_supply = 1000000000` derives
0.0001, and `total_supply = 0` yields 0.0. -/
theorem C1_amended_witness :
    getLastPriceFromPumpFun "someMint" (some { mockCoin1 with mint := "someMint" }) = 0.0001 ∧
    getLastPriceFromPumpFun "someMint"
      (some { mockCoin1 with mint := "someMint", total_supply := some 0 }) = 0 := by
  constructor
  · have h := (C1_amended "someMint" { mockCoin1 with mint := "someMint" } 100000 rfl).1
    rw [h (by norm_num [mockCoin1])]
    norm_num [mockCoin1]
  · have h := (C1_amended "someMint" { mockCoin1 with mint := "someMint", total_supply := some 0 }
      100000 rfl).2.1
    rw [h (by simp [mockCoin1])]
    simp [mockPrices]

/-- C2: the Market Router's `get_last_price` either returns a strictly
positive price or raises an error wrapping the underlying cause, and on the
coin-market path (tag `"PUMP"` case-insensitively) it raises whenever
`get_last_price_from_pump_fun` yields a value ≤ 0. -/
theorem C2_router_price (symbol market : String) (coinData : Option CoinData)
    (xq : Except String ℚ) :
    (∀ p, routerGetLastPrice symbol market coinData xq = Except.ok p → 0 < p) ∧
    (∀ e, routerGetLastPrice symbol market coinData xq = Except.error e →
      ∃ cause, e = RouterError.priceUnavailable symbol market cause) ∧
    (pyUpper market = "PUMP" → getLastPriceFromPumpFun symbol coinData ≤ 0 →
      routerGetLastPrice symbol market coinData xq =
        Except.error (RouterError.priceUnavailable symbol market
          (FailCause.invalidPumpPrice (getLastPriceFromPumpFun symbol coinData)))) := by
  refine ⟨?_, ?_, ?_⟩
  · intro p hp
    unfold routerGetLastPrice at hp
    split at hp
    · dsimp only at hp
      split at hp
      · cases hp
        assumption
      · cases hp
    · cases xq with
      | ok q =>
        simp only at hp
        split at hp
        · cases hp
          assumption
        · cases hp
      | error e => cases hp
  · intro e he
    unfold routerGetLastPrice at he
    split at he
    · dsimp only at he
      split at he
      · cases he
      · cases he
        exact ⟨_, rfl⟩
    · cases xq with
      | ok q =>
        simp only at he
        split at he
        · cases he
        · cases he
          exact ⟨_, rfl⟩
      | error msg =>
        cases he
        exact ⟨_, rfl⟩
  · intro hm hle
    simp [routerGetLastPrice, hm, not_lt.mpr hle]

/-- C2, witness: on the pump path with an unfetchable, non-mock mint the
derived price is 0, so the router raises the wrapped invalid-price error. -/
theorem C2_witness :
    routerGetLastPrice "x" "pump" none (Except.error "e") =
      Except.error (RouterError.priceUnavailable "x" "pump"
        (FailCause.invalidPumpPrice 0)) := by
  have h := (C2_router_price "x" "pump" none (Except.error "e")).2.2 (by decide)
    (by simp [getLastPriceFromPumpFun, mockPrices])
  simpa [getLastPriceFromPumpFun, mockPrices] using h

/-- C3: `get_coins_list` serves the fixed synthetic dataset (truncated to
the requested limit, and with limit = 2 exactly the first two records in
order) exactly on upstream status 530; on any other non-200 status, and on
a transport failure, it returns `[]` without raising. -/
theorem C3_coins_list (limit status : ℕ) (body : ApiBody) :
    getCoinsList limit (some (530, body)) = getMockCoinsData limit ∧
    getCoinsList 2 (some (530, body)) = [mockCoin1, mockCoin2] ∧
    (status ≠ 200 → status ≠ 530 → getCoinsList limit (some (status, body)) = []) ∧
    getCoinsList limit none = [] := by
  refine ⟨by simp [getCoinsList], by simp [getCoinsList, getMockCoinsData], ?_, rfl⟩
  intro h200 h530
  simp [getCoinsList, h200, h530]

/-- C3, witness: status 530 with limit 2 yields the first two mock records;
status 404 yields the empty list. -/
theorem C3_witness :
    getCoinsList 2 (some (530, ApiBody.other)) = [mockCoin1, mockCoin2] ∧
    getCoinsList 2 (some (404, ApiBody.other)) = [] :=
  ⟨(C3_coins_list 2 404 ApiBody.other).2.1,
   (C3_coins_list 2 404 ApiBody.other).2.2.1 (by decide) (by decide)⟩

/-- C4: for every market tag equal to `"PUMP"` case-insensitively, the
router's `get_kline_data` returns the empty list without raising, and the
result does not depend on the equity upstream's outcome (no source is
consulted). -/
theorem C4_router_kline (symbol market period : String) (count : ℤ)
    (xq xq2 : Except String (List KlineDict)) (h : pyUpper market = "PUMP") :
    routerGetKlineData symbol market period count xq = Except.ok [] ∧
    routerGetKlineData symbol market period count xq =
      routerGetKlineData symbol market period count xq2 := by
  simp [routerGetKlineData, h]

/-- C4, witness: tag `"Pump"` returns `.ok []` even when the equity source
would have failed. -/
theorem C4_witness :
    routerGetKlineData "m" "Pump" "1d" 100 (Except.error "boom") = Except.ok [] :=
  (C4_router_kline "m" "Pump" "1d" 100 (Except.error "boom") (Except.ok []) (by decide)).1

/-- C5: `get_latest_price` returns a positive quote-endpoint `current`
as-is, for every possible kline outcome (the fallback is not invoked); when
the quote attempt yields nothing positive it returns exactly the kline
fallback's result; and `get_last_price_from_xueqiu` raises whenever both
strategies yield nothing or a non-positive value. -/
theorem C5_latest_price (symbol : String) (current : ℚ) (quote : Option (Option ℚ))
    (kline : Option KData) :
    (0 < current → getLatestPrice (some (some current)) kline = some current) ∧
    ((quote = none ∨ quote = some none ∨ ∃ c, quote = some (some c) ∧ c ≤ 0) →
      getLatestPrice quote kline = fallbackKlinePrice kline) ∧
    ((getLatestPrice quote kline = none ∨
        ∃ p, getLatestPrice quote kline = some p ∧ p ≤ 0) →
      ∃ e, getLastPriceFromXueqiu symbol quote kline = Except.error e) := by
  refine ⟨?_, ?_, ?_⟩
  · intro h
    simp [getLatestPrice, h]
  · rintro (rfl | rfl | ⟨c, rfl, hc⟩)
    · rfl
    · rfl
    · simp [getLatestPrice, not_lt.mpr hc]
  · rintro (h | ⟨p, hp, hple⟩)
    · refine ⟨"無法獲取 " ++ symbol ++ " 的有效價格", ?_⟩
      simp [getLastPriceFromXueqiu, h]
    · refine ⟨"無法獲取 " ++ symbol ++ " 的有效價格", ?_⟩
      simp [getLastPriceFromXueqiu, hp, hple]

/-- C5, witness: `current = 150.5` is returned untouched even though the
kline data on hand would have produced 7; with no quote and no kline the
wrapper raises. -/
theorem C5_witness :
    getLatestPrice (some (some 150.5)) (some ⟨["close"], [[some 7]]⟩) = some 150.5 ∧
    (∃ e, getLastPriceFromXueqiu "AAPL" none none = Except.error e) := by
  constructor
  · exact (C5_latest_price "AAPL" 150.5 (some (some 150.5)) (some ⟨["close"], [[some 7]]⟩)).1
      (by norm_num)
  · exact (C5_latest_price "AAPL" 150.5 none none).2.2 (Or.inl rfl)

/-- C6: `parse_kline_data` on `column = ["timestamp", "close"]` and
`item = [[1700000000000, 42.5]]` produces one record with
`timestamp = 1700000000000` and `close = 42.5`, every other optional candle
field absent/null, and no error. -/
theorem C6_parse_kline :
    parseKlineData (some ⟨["timestamp", "close"], [[some 1700000000000, some 42.5]]⟩) =
      Except.ok [{ timestamp := some 1700000000000
                   datetimeSecs := some 1700000000
                   close := some (some 42.5) }] := by
  norm_num [parseKlineData, parseRow, fieldCell, colMapLookup, List.enum,
    List.mapM, List.mapM.loop, Except.map,
    show ("close" : String) ≠ "timestamp" by decide,
    show ("close" : String) ≠ "open" by decide,
    show ("timestamp" : String) ≠ "open" by decide,
    show ("close" : String) ≠ "high" by decide,
    show ("timestamp" : String) ≠ "high" by decide,
    show ("close" : String) ≠ "low" by decide,
    show ("timestamp" : String) ≠ "low" by decide,
    show ("close" : String) ≠ "volume" by decide,
    show ("timestamp" : String) ≠ "volume" by decide,
    show ("close" : String) ≠ "amount" by decide,
    show ("timestamp" : String) ≠ "amount" by decide,
    show ("close" : String) ≠ "chg" by decide,
    show ("timestamp" : String) ≠ "chg" by decide,
    show ("close" : String) ≠ "percent" by decide,
    show ("timestamp" : String) ≠ "percent" by decide]

/-- C7: both cookie parsers handle the `"; "`-joined, newline-joined and
single-pair formats, skip entries with no `=`, and map the empty and
malformed inputs to the empty dict. -/
theorem C7_cookie_parsing :
    parseCookieStringPF "a=1; b=2" = [("a", "1"), ("b", "2")] ∧
    parseCookieStringPF "a=1\nb=2" = [("a", "1"), ("b", "2")] ∧
    parseCookieStringPF "a=1" = [("a", "1")] ∧
    parseCookieStringPF "" = [] ∧
    parseCookieStringPF "noequalsign" = [] ∧
    parseCookieStringPF "a=1; junk; b=2" = [("a", "1"), ("b", "2")] ∧
    parseCookieStringPF "x\ny=2" = [("y", "2")] ∧
    parseCookieStringXQ (some "a=1; b=2") = [("a", "1"), ("b", "2")] ∧
    parseCookieStringXQ (some "a=1\nb=2") = [("a", "1"), ("b", "2")] ∧
    parseCookieStringXQ (some "a=1") = [("a", "1")] ∧
    parseCookieStringXQ (some "") = [] ∧
    parseCookieStringXQ (some "noequalsign") = [] := by
  decide

/-- C8, counterexample: after setting cookie `"a=1"`, a second set with the
empty string leaves the session jar holding `a=1` — it does not clear it,
for either source's `update_cookies`. -/
theorem C8_counterexample :
    setPumpFunCookieSession (setPumpFunCookieSession [] "a=1") "" = [("a", "1")] ∧
    updateCookiesXQ (updateCookiesXQ [] "a=1") "" = [("a", "1")] ∧
    [("a", "1")] ≠ ([] : List (String × String)) := by
  decide

/-- C8, amended: a cookie string that parses to no `k=v` pairs leaves the
session's effective cookies unchanged (the update is skipped with a
warning), on every set path of both sources. -/
theorem C8_amended (jar : List (String × String)) (s : String)
    (hpf : parseCookieStringPF s = []) (hxq : parseCookieStringXQ (some s) = []) :
    setPumpFunCookieSession jar s = jar ∧
    updateCookiesPF jar s = jar ∧
    updateCookiesXQ jar s = jar ∧
    setupSessionCookiesXQ jar (some s) = jar := by
  refine ⟨?_, ?_, ?_, ?_⟩
  · simp [setPumpFunCookieSession, updateCookiesPF, hpf]
  · simp [updateCookiesPF, hpf]
  · simp [updateCookiesXQ, hxq]
  · simp [setupSessionCookiesXQ, hxq, dictUpdate]

/-- C8, witness: the empty and malformed strings leave a jar holding `a=1`
untouched on every set path. -/
theorem C8_amended_witness :
    setPumpFunCookieSession [("a", "1")] "" = [("a", "1")] ∧
    updateCookiesPF [("a", "1")] "" = [("a", "1")] ∧
    updateCookiesXQ [("a", "1")] "noequalsign" = [("a", "1")] ∧
    setupSessionCookiesXQ [("a", "1")] (some "") = [("a", "1")] :=
  ⟨(C8_amended [("a", "1")] "" (by decide) (by decide)).1,
   (C8_amended [("a", "1")] "" (by decide) (by decide)).2.1,
   (C8_amended [("a", "1")] "noequalsign" (by decide) (by decide)).2.2.1,
   (C8_amended [("a", "1")] "" (by decide) (by decide)).2.2.2⟩

/-- C9: `get_market_status` on a case-insensitive `"PUMP"` tag returns the
fixed 24/7 constant independently of symbol and wall clock; on every other
tag it returns the equity client's hour-derived record, whose status is
`"TRADING"` or `"CLOSED"` and which never equals the fixed constant. -/
theorem C9_market_status (symbol market nowIso : String) (hour : ℕ) (nowMillis : ℤ) :
    (pyUpper market = "PUMP" →
      routerGetMarketStatus symbol market hour nowMillis nowIso = pumpMarketStatus) ∧
    (pyUpper market ≠ "PUMP" →
      routerGetMarketStatus symbol market hour nowMillis nowIso =
        xueqiuGetMarketStatus symbol hour nowMillis nowIso ∧
      ((xueqiuGetMarketStatus symbol hour nowMillis nowIso).market_status = "TRADING" ∨
        (xueqiuGetMarketStatus symbol hour nowMillis nowIso).market_status = "CLOSED") ∧
      routerGetMarketStatus symbol market hour nowMillis nowIso ≠ pumpMarketStatus) := by
  constructor
  · intro h
    simp [routerGetMarketStatus, h]
  · intro h
    refine ⟨by simp [routerGetMarketStatus, h], ?_, ?_⟩
    · by_cases ht : (21 ≤ hour ∧ hour ≤ 23) ∨ (0 ≤ hour ∧ hour ≤ 4)
      · left
        simp only [xueqiuGetMarketStatus]
        rw [if_pos ht]
      · right
        simp only [xueqiuGetMarketStatus]
        rw [if_neg ht]
    · intro heq
      rw [routerGetMarketStatus, if_neg h] at heq
      have := congrArg MarketStatusRec.market_name heq
      simp [xueqiuGetMarketStatus, pumpMarketStatus] at this

/-- C9, witness: tag `"pump"` yields the fixed constant; tag `"US"` never
does. -/
theorem C9_witness :
    routerGetMarketStatus "DOGE" "pump" 10 1700000000000 "t" = pumpMarketStatus ∧
    routerGetMarketStatus "AAPL" "US" 10 1700000000000 "t" ≠ pumpMarketStatus :=
  ⟨(C9_market_status "DOGE" "pump" "t" 10 1700000000000).1 (by decide),
   ((C9_market_status "AAPL" "US" "t" 10 1700000000000).2 (by decide)).2.2⟩

/-- C10: for each of the three hardcoded mock mint addresses, the price
derived from the mock coin record (`usd_market_cap / total_supply`) equals
the hardcoded fallback price in `get_last_price_from_pump_fun`'s
`mock_prices` table — 0.0001, 0.00025 and 0.0005 respectively. -/
theorem C10_mock_price_consistency :
    getLastPriceFromPumpFun mockCoin1.mint (some mockCoin1) = (mockPrices mockCoin1.mint).getD 0 ∧
    getLastPriceFromPumpFun mockCoin2.mint (some mockCoin2) = (mockPrices mockCoin2.mint).getD 0 ∧
    getLastPriceFromPumpFun mockCoin3.mint (some mockCoin3) = (mockPrices mockCoin3.mint).getD 0 ∧
    mockPrices mockCoin1.mint = some 0.0001 ∧
    mockPrices mockCoin2.mint = some 0.00025 ∧
    mockPrices mockCoin3.mint = some 0.0005 := by
  have h21 : ("22222222222222222222222222222223" : String) ≠
      "11111111111111111111111111111112" := by decide
  have h31 : ("33333333333333333333333333333334" : String) ≠
      "11111111111111111111111111111112" := by decide
  have h32 : ("33333333333333333333333333333334" : String) ≠
      "22222222222222222222222222222223" := by decide
  norm_num [getLastPriceFromPumpFun, mockCoin1, mockCoin2, mockCoin3, mockPrices,
    h21, h31, h32]

end MemeBet
